import Mathlib

/-!
Shallow embedding of the Personal Fitness Tracker application
(source file `pft.py`): BMI helpers, the flat per-category tabular
store, the per-category logging flows, the chart layer, and the
estimator pipeline.  Numeric values are modelled as rationals,
dates/timestamps as natural numbers.
-/

namespace PFT

/-- Embeds `calculate_bmi(height, weight)`:
`weight / (height / 100) ** 2 if height > 0 else 0`. -/
def calculate_bmi (height weight : ℚ) : ℚ :=
  if height > 0 then weight / (height / 100) ^ 2 else 0

/-- Embeds `get_bmi_category(bmi)`: the four-branch chained
conditional of the source, with its literal thresholds
18.5, 24.9, 25 and 29.9. -/
def get_bmi_category (bmi : ℚ) : String :=
  if bmi < 18.5 then "Underweight"
  else if 18.5 ≤ bmi ∧ bmi < 24.9 then "Normal weight"
  else if 25 ≤ bmi ∧ bmi < 29.9 then "Overweight"
  else "Obese"

/-- The three values of the profile's gender selectbox
(`st.selectbox("Gender", ["Male", "Female", "Other"])`). -/
inductive Gender where
  | Male : Gender
  | Female : Gender
  | Other : Gender
deriving DecidableEq, Repr

/-- Embeds the `Gender_Male` feature built at prediction time:
`1 if st.session_state.profile['gender'] == "Male" else 0`. -/
def gender_male (g : Gender) : ℚ :=
  if g = Gender.Male then 1 else 0

/-- A flat tabular file: a pandas DataFrame reduced to its column
names and its ordered list of rows (row type `ρ` varies per
tracking category). -/
structure Table (ρ : Type) where
  columns : List String
  rows : List ρ
deriving DecidableEq, Repr

/-- Embeds `load_data(file_name, default_columns)`: the file's
content when it exists (`pd.read_csv`), else — the
`FileNotFoundError` branch — an empty DataFrame carrying
`default_columns`.  The file system's answer for `file_name` is
passed as an `Option (Table ρ)`. -/
def load_data {ρ : Type} (file : Option (Table ρ)) (default_columns : List String) :
    Table ρ :=
  match file with
  | some t => t
  | none => { columns := default_columns, rows := [] }

/-- Embeds `save_data(file_name, data)`: `data.to_csv` rewrites the
whole file, so the file's new content is exactly `data`. -/
def save_data {ρ : Type} (data : Table ρ) : Option (Table ρ) :=
  some data

/-- Embeds `pd.concat([df, pd.DataFrame([new_row])], ignore_index=True)`
for a single new row: the row is appended at the end, columns kept. -/
def concat_row {ρ : Type} (t : Table ρ) (new_row : ρ) : Table ρ :=
  { t with rows := t.rows ++ [new_row] }

/-- `calorie_columns = ['date', 'calories_consumed', 'calories_burned']`. -/
def calorie_columns : List String := ["date", "calories_consumed", "calories_burned"]

/-- `exercise_columns = ['date', 'exercise_type', 'duration']`. -/
def exercise_columns : List String := ["date", "exercise_type", "duration"]

/-- `water_columns = ['date', 'glasses']`. -/
def water_columns : List String := ["date", "glasses"]

/-- `sleep_columns = ["date", "hours_slept", "sleep_quality"]`. -/
def sleep_columns : List String := ["date", "hours_slept", "sleep_quality"]

/-- A row of `calorie_data.csv`:
`{"date": ..., "calories_consumed": 0, "calories_burned": prediction}`. -/
structure CalorieRow where
  date : ℕ
  calories_consumed : ℚ
  calories_burned : ℚ
deriving DecidableEq, Repr

/-- A row of `exercise_data.csv`:
`{'date': ..., 'exercise_type': ..., 'duration': ...}`. -/
structure ExerciseRow where
  date : ℕ
  exercise_type : String
  duration : ℚ
deriving DecidableEq, Repr

/-- A row of `water_data.csv`: `{'date': ..., 'glasses': ...}`. -/
structure WaterRow where
  date : ℕ
  glasses : ℕ
deriving DecidableEq, Repr

/-- A row of `sleep_data.csv`:
`{"date": ..., "hours_slept": ..., "sleep_quality": ...}`. -/
structure SleepRow where
  date : ℕ
  hours_slept : ℚ
  sleep_quality : ℕ
deriving DecidableEq, Repr

/-- The four tracking categories of the application. -/
inductive Category where
  | calories : Category
  | exercise : Category
  | water : Category
  | sleep : Category
deriving DecidableEq, Repr

/-- The fixed column set each category's file is declared with in the
source (the `default_columns` passed to every `load_data` call for
that category). -/
def Category.columns : Category → List String
  | Category.calories => calorie_columns
  | Category.exercise => exercise_columns
  | Category.water => water_columns
  | Category.sleep => sleep_columns

/-- The session profile captured on "Update Profile":
`{"gender": gender, "height": height, "weight": weight, "age": age,
"bmi": bmi}` with `bmi = calculate_bmi(height, weight)`. -/
structure Profile where
  gender : Gender
  height : ℚ
  weight : ℚ
  age : ℚ
deriving DecidableEq, Repr

/-- The feature tuple the fitted estimator consumes:
columns `Age, BMI, Duration, Heart_Rate, Body_Temp, Gender_Male`. -/
structure Features where
  age : ℚ
  bmi : ℚ
  duration : ℚ
  heart_rate : ℚ
  body_temp : ℚ
  gm : ℚ
deriving DecidableEq, Repr

/-- Embeds the `user_data` DataFrame built in the calorie-prediction
form (lines 106-113): profile age, profile BMI (stored in the
session as `calculate_bmi(height, weight)`), the three selected
inputs, and the male indicator. -/
def user_data (profile : Profile) (duration heart_rate body_temp : ℚ) : Features :=
  { age := profile.age
    bmi := calculate_bmi profile.height profile.weight
    duration := duration
    heart_rate := heart_rate
    body_temp := body_temp
    gm := gender_male profile.gender }

/-- The persisted files of the application: one optional table per
tracking category (`none` = the csv file does not exist yet). -/
structure AppState where
  calorie_file : Option (Table CalorieRow)
  exercise_file : Option (Table ExerciseRow)
  water_file : Option (Table WaterRow)
  sleep_file : Option (Table SleepRow)

/-- The state before any record was logged: no category file exists. -/
def initState : AppState :=
  { calorie_file := none, exercise_file := none, water_file := none,
    sleep_file := none }

/-- Embeds the "Log Calories Burned" handler (lines 119-128):
load the calorie history, append
`{"date": now, "calories_consumed": 0, "calories_burned": prediction}`
where `prediction = model.predict(user_data)[0]`, and rewrite the
file.  The fitted model is the function argument `predict`. -/
def log_calories (predict : Features → ℚ) (s : AppState) (profile : Profile)
    (now : ℕ) (duration heart_rate body_temp : ℚ) : AppState :=
  let prediction := predict (user_data profile duration heart_rate body_temp)
  let calorie_data := load_data s.calorie_file calorie_columns
  let new_row : CalorieRow :=
    { date := now, calories_consumed := 0, calories_burned := prediction }
  { s with calorie_file := save_data (concat_row calorie_data new_row) }

/-- Embeds the exercise form submission (lines 143-147): load the
exercise history, concatenate the new row, rewrite the file. -/
def log_exercise (s : AppState) (new_row : ExerciseRow) : AppState :=
  let exercise_data := load_data s.exercise_file exercise_columns
  { s with exercise_file := save_data (concat_row exercise_data new_row) }

/-- Embeds the water form submission (lines 161-164). -/
def log_water (s : AppState) (new_row : WaterRow) : AppState :=
  let water_data := load_data s.water_file water_columns
  { s with water_file := save_data (concat_row water_data new_row) }

/-- Embeds the sleep form submission (lines 181-184). -/
def log_sleep (s : AppState) (new_row : SleepRow) : AppState :=
  let sleep_data := load_data s.sleep_file sleep_columns
  { s with sleep_file := save_data (concat_row sleep_data new_row) }

/-- One user interaction that mutates the stored files: a submission
of one of the four tracking forms, with arbitrary (in-range or not)
widget inputs. -/
inductive Step (predict : Features → ℚ) : AppState → AppState → Prop where
  | calories (s : AppState) (profile : Profile) (now : ℕ)
      (duration heart_rate body_temp : ℚ) :
      Step predict s (log_calories predict s profile now duration heart_rate body_temp)
  | exercise (s : AppState) (new_row : ExerciseRow) :
      Step predict s (log_exercise s new_row)
  | water (s : AppState) (new_row : WaterRow) :
      Step predict s (log_water s new_row)
  | sleep (s : AppState) (new_row : SleepRow) :
      Step predict s (log_sleep s new_row)

/-- The stored states the application can produce, starting from no
files and applying form submissions. -/
inductive Reachable (predict : Features → ℚ) : AppState → Prop where
  | init : Reachable predict initState
  | step (s t : AppState) : Reachable predict s → Step predict s t →
      Reachable predict t

/-- A visible output of the Progress tab: a coercion of the date
column (`pd.to_datetime`), a rendered chart (`st.plotly_chart`), or
an informational placeholder (`st.warning`). -/
inductive ChartAction where
  | coerce_dates : ChartAction
  | chart (title : String) : ChartAction
  | warning (msg : String) : ChartAction
deriving DecidableEq, Repr

/-- Embeds the calorie block of the Progress tab (lines 196-202):
if the loaded history is non-empty, coerce the date column and
render the line chart, else show the warning placeholder. -/
def visualize_calories (calorie_data : Table CalorieRow) : List ChartAction :=
  if ¬ calorie_data.rows.isEmpty then
    [ChartAction.coerce_dates, ChartAction.chart "Calorie Tracking Over Time"]
  else
    [ChartAction.warning
      "No calorie data available. Please log your activity in Daily Tracking."]

/-- Embeds the exercise block of the Progress tab (lines 208-212):
if the loaded history is non-empty, coerce the date column and
render the bar chart; the conditional has no else branch. -/
def visualize_exercise (exercise_data : Table ExerciseRow) : List ChartAction :=
  if ¬ exercise_data.rows.isEmpty then
    [ChartAction.coerce_dates, ChartAction.chart "Exercise Duration Over Time"]
  else
    []

/-- Embeds the water block of the Progress tab (lines 219-225). -/
def visualize_water (water_data : Table WaterRow) : List ChartAction :=
  if ¬ water_data.rows.isEmpty then
    [ChartAction.coerce_dates, ChartAction.chart "Water Intake Over Time"]
  else
    [ChartAction.warning
      "No water intake data available. Please log your water intake."]

/-- Embeds the sleep block of the Progress tab (lines 232-246):
two line charts when non-empty, one warning when empty. -/
def visualize_sleep (sleep_data : Table SleepRow) : List ChartAction :=
  if ¬ sleep_data.rows.isEmpty then
    [ChartAction.coerce_dates, ChartAction.chart "Sleep Duration Over Time",
      ChartAction.chart "Sleep Quality Over Time"]
  else
    [ChartAction.warning
      "No sleep data available. Please log your sleep details in Daily Tracking."]

/-- True when the action is an informational placeholder. -/
def ChartAction.isWarning : ChartAction → Bool
  | ChartAction.warning _ => true
  | _ => false

/-- A row of `calories.csv` (reference data): user identifier and
calories burned. -/
structure CaloriesCsvRow where
  user_id : ℕ
  calories : ℚ
deriving DecidableEq, Repr

/-- A row of `exercise.csv` (reference data): user identifier,
gender label and the numeric measurements. -/
structure ExerciseCsvRow where
  user_id : ℕ
  gender : String
  age : ℚ
  height : ℚ
  weight : ℚ
  duration : ℚ
  heart_rate : ℚ
  body_temp : ℚ
deriving DecidableEq, Repr

/-- Embeds `exercise.merge(calories, on="User_ID")`: the inner join
of the two reference tables on the user identifier, in the order
pandas produces it (left table order, matches in right table order). -/
def merge_on_user_id (exercise : List ExerciseCsvRow) (calories : List CaloriesCsvRow) :
    List (ExerciseCsvRow × CaloriesCsvRow) :=
  exercise.flatMap fun e =>
    (calories.filter fun c => c.user_id = e.user_id).map fun c => (e, c)

/-- Embeds lines 40-51 of `prepare_model`: per joined row, the BMI
column `Weight / ((Height / 100) ** 2)`, the one-hot
`Gender_Male` column, and the selection of the six feature columns
paired with the `Calories` label. -/
def feature_rows (exercise : List ExerciseCsvRow) (calories : List CaloriesCsvRow) :
    List (Features × ℚ) :=
  (merge_on_user_id exercise calories).map fun p =>
    ({ age := p.1.age
       bmi := p.1.weight / ((p.1.height / 100) ^ 2)
       duration := p.1.duration
       heart_rate := p.1.heart_rate
       body_temp := p.1.body_temp
       gm := if p.1.gender = "Male" then 1 else 0 }, p.2.calories)

/-- Embeds `prepare_model` (lines 35-59) against abstract library
primitives.  `split seed data` models
`train_test_split(X, y, test_size=0.2, random_state=seed)` as a
seed-determined function returning (train, test); `fit seed train`
models `RandomForestRegressor(n_estimators=1000, max_depth=6,
random_state=seed).fit(...)` as a seed-determined function returning
the fitted prediction function.  `process_entropy` models the
per-run ambient randomness the library would consult had a
`random_state` been left unset; the source passes the literal seed 1
to both calls, so `process_entropy` is never consulted. -/
def prepare_model
    (split : ℕ → List (Features × ℚ) → List (Features × ℚ) × List (Features × ℚ))
    (fit : ℕ → List (Features × ℚ) → (Features → ℚ))
    (process_entropy : ℕ)
    (calories : List CaloriesCsvRow) (exercise : List ExerciseCsvRow) :
    Features → ℚ :=
  let data := feature_rows exercise calories
  let train_and_test := split 1 data
  fit 1 train_and_test.1

/-! ## Theorems -/

/-- C1 (counterexample): contrary to the claim, a BMI of exactly 24.9
is not classified "Overweight": the code classifies it "Obese",
because the Overweight branch requires `25 <= bmi`. -/
theorem bmi_249_not_overweight :
    get_bmi_category 24.9 = "Obese" ∧ get_bmi_category 24.9 ≠ "Overweight" := by
  have h : get_bmi_category 24.9 = "Obese" := by
    unfold get_bmi_category; norm_num
  exact ⟨h, by rw [h]; decide⟩

/-- C1 (amended): a BMI of exactly 24.9 is excluded from the
Normal-weight bucket by its `bmi < 24.9` check, but it also fails the
Overweight branch's `25 <= bmi` check, so it falls through to the
final else and is classified into the Obese bucket. -/
theorem bmi_249_falls_to_obese :
    ¬ ((18.5 : ℚ) ≤ 24.9 ∧ (24.9 : ℚ) < 24.9) ∧
    ¬ ((25 : ℚ) ≤ 24.9) ∧
    get_bmi_category 24.9 = "Obese" := by
  refine ⟨by norm_num, by norm_num, ?_⟩
  unfold get_bmi_category; norm_num

/-- C2: every BMI value in [24.9, 25) matches no explicit branch of
`get_bmi_category` — not the Underweight test, not the Normal-weight
range, not the Overweight range — and falls through to the final
else, returning "Obese". -/
theorem bmi_gap_unclassified_obese (bmi : ℚ) (h1 : 24.9 ≤ bmi) (h2 : bmi < 25) :
    ¬ bmi < 18.5 ∧
    ¬ (18.5 ≤ bmi ∧ bmi < 24.9) ∧
    ¬ (25 ≤ bmi ∧ bmi < 29.9) ∧
    get_bmi_category bmi = "Obese" := by
  have hA : ¬ bmi < 18.5 := by push_neg; linarith
  have hB : ¬ (18.5 ≤ bmi ∧ bmi < 24.9) := by rintro ⟨-, h⟩; linarith
  have hC : ¬ (25 ≤ bmi ∧ bmi < 29.9) := by rintro ⟨h, -⟩; linarith
  refine ⟨hA, hB, hC, ?_⟩
  unfold get_bmi_category
  rw [if_neg hA, if_neg hB, if_neg hC]

/-- C2 (witness): the property instantiated at the concrete boundary
value 24.9. -/
theorem bmi_gap_unclassified_obese_at_249 :
    ¬ (24.9 : ℚ) < 18.5 ∧
    ¬ ((18.5 : ℚ) ≤ 24.9 ∧ (24.9 : ℚ) < 24.9) ∧
    ¬ ((25 : ℚ) ≤ 24.9 ∧ (24.9 : ℚ) < 29.9) ∧
    get_bmi_category 24.9 = "Obese" :=
  bmi_gap_unclassified_obese 24.9 (by norm_num) (by norm_num)

/-- C5: for height 180 cm and weight 80 kg, the derived BMI equals
`weight / (height/100)^2`, lies strictly between 24.69 and 24.70
(so BMI ≈ 24.69), is below 24.9, and the returned category is
"Normal weight". -/
theorem profile_180_80_normal_weight :
    calculate_bmi 180 80 = 80 / ((180 : ℚ) / 100) ^ 2 ∧
    (24.69 : ℚ) < calculate_bmi 180 80 ∧
    calculate_bmi 180 80 < 24.70 ∧
    calculate_bmi 180 80 < 24.9 ∧
    get_bmi_category (calculate_bmi 180 80) = "Normal weight" := by
  unfold calculate_bmi get_bmi_category
  norm_num

/-- C9: the male-indicator feature that `user_data` passes to the
estimator is 1 exactly when the profile's gender is Male, and is 0
exactly when it is not (so both Female and Other map to 0). -/
theorem gender_male_indicator (p : Profile) (d h t : ℚ) :
    ((user_data p d h t).gm = 1 ↔ p.gender = Gender.Male) ∧
    ((user_data p d h t).gm = 0 ↔ p.gender ≠ Gender.Male) := by
  cases hg : p.gender <;>
    simp [user_data, gender_male, hg]

/-- C9 (witness): the indicator property at a concrete Female
profile and concrete prediction inputs. -/
theorem gender_male_indicator_female_profile :
    ((user_data { gender := Gender.Female, height := 165, weight := 60, age := 25 }
        30 120 37).gm = 1 ↔
      ({ gender := Gender.Female, height := 165, weight := 60, age := 25 } :
        Profile).gender = Gender.Male) ∧
    ((user_data { gender := Gender.Female, height := 165, weight := 60, age := 25 }
        30 120 37).gm = 0 ↔
      ({ gender := Gender.Female, height := 165, weight := 60, age := 25 } :
        Profile).gender ≠ Gender.Male) :=
  gender_male_indicator
    { gender := Gender.Female, height := 165, weight := 60, age := 25 } 30 120 37

/-- C10: `calculate_bmi` is total on non-positive heights: whenever
`height > 0` fails, the guard returns 0 without taking the division
branch; and when the guard holds, the divisor `(height/100)^2` is
non-zero and the quotient formula is returned. -/
theorem calculate_bmi_guarded (height weight : ℚ) :
    (¬ 0 < height → calculate_bmi height weight = 0) ∧
    (0 < height →
      (height / 100) ^ 2 ≠ 0 ∧
      calculate_bmi height weight = weight / (height / 100) ^ 2) := by
  constructor
  · intro h
    unfold calculate_bmi
    rw [if_neg h]
  · intro h
    refine ⟨by positivity, ?_⟩
    unfold calculate_bmi
    rw [if_pos h]

/-- C10 (witness): at height 0 the function returns 0; at height 180
the divisor is non-zero and the quotient formula is used. -/
theorem calculate_bmi_guarded_at_0_and_180 :
    calculate_bmi 0 70 = 0 ∧
    (((180 : ℚ) / 100) ^ 2 ≠ 0 ∧
      calculate_bmi 180 80 = 80 / ((180 : ℚ) / 100) ^ 2) :=
  ⟨(calculate_bmi_guarded 0 70).1 (by norm_num),
    (calculate_bmi_guarded 180 80).2 (by norm_num)⟩

/-- C3: for every tracking category, loading when the category's file
does not exist returns — rather than failing — an empty dataset whose
column set is exactly the category's declared fixed column set. -/
theorem load_missing_file_empty_with_columns (ρ : Type) (c : Category) :
    (load_data (ρ := ρ) none c.columns).columns = c.columns ∧
    (load_data (ρ := ρ) none c.columns).rows = [] :=
  ⟨rfl, rfl⟩

/-- C4: for every tracking category, logging two records in order
starting from an empty history (no file) yields exactly the two-row
history with the first record before the second: the
load-concatenate-rewrite append loses no rows and preserves order.
For the calorie flow the two stored rows are the ones the handler
builds from the two submissions' inputs. -/
theorem log_two_records_in_order
    (e1 e2 : ExerciseRow) (w1 w2 : WaterRow) (sl1 sl2 : SleepRow)
    (predict : Features → ℚ) (p1 p2 : Profile) (n1 n2 : ℕ)
    (d1 hr1 bt1 d2 hr2 bt2 : ℚ) :
    (load_data (log_exercise (log_exercise initState e1) e2).exercise_file
        exercise_columns).rows = [e1, e2] ∧
    (load_data (log_water (log_water initState w1) w2).water_file
        water_columns).rows = [w1, w2] ∧
    (load_data (log_sleep (log_sleep initState sl1) sl2).sleep_file
        sleep_columns).rows = [sl1, sl2] ∧
    (load_data
        ((log_calories predict
          (log_calories predict initState p1 n1 d1 hr1 bt1) p2 n2 d2 hr2 bt2).calorie_file)
        calorie_columns).rows =
      [{ date := n1, calories_consumed := 0,
         calories_burned := predict (user_data p1 d1 hr1 bt1) },
       { date := n2, calories_consumed := 0,
         calories_burned := predict (user_data p2 d2 hr2 bt2) }] :=
  ⟨rfl, rfl, rfl, rfl⟩

/-- C8: the estimator pipeline's prediction is a function of the
reference data and the input features alone: two runs under different
ambient randomness produce the same prediction, because the source
hands the constant seed 1 to both the train/test split and the
forest, and the library primitives are deterministic in their seed. -/
theorem estimator_deterministic
    (split : ℕ → List (Features × ℚ) → List (Features × ℚ) × List (Features × ℚ))
    (fit : ℕ → List (Features × ℚ) → (Features → ℚ))
    (entropy1 entropy2 : ℕ)
    (calories : List CaloriesCsvRow) (exercise : List ExerciseCsvRow)
    (x : Features) :
    prepare_model split fit entropy1 calories exercise x =
      prepare_model split fit entropy2 calories exercise x :=
  rfl

/-- C6 (counterexample): contrary to the claim, the exercise block of
the chart layer shows no informational placeholder on an empty
history: its conditional has no else branch, so it emits nothing at
all (in particular no warning action). -/
theorem visualize_exercise_empty_no_placeholder :
    visualize_exercise { columns := exercise_columns, rows := [] } = [] := by
  decide

/-- C6 (amended): for the calories, water and sleep categories the
chart layer shows an informational placeholder when the loaded
history is empty, and otherwise coerces the date column and renders
the category's time-series chart(s); the exercise category likewise
coerces and renders its bar chart when non-empty, but on an empty
history it shows nothing at all — no placeholder. -/
theorem visualize_placeholder_behavior
    (tc : Table CalorieRow) (te : Table ExerciseRow)
    (tw : Table WaterRow) (ts : Table SleepRow) :
    (tc.rows = [] → visualize_calories tc =
      [ChartAction.warning
        "No calorie data available. Please log your activity in Daily Tracking."]) ∧
    (tc.rows ≠ [] → visualize_calories tc =
      [ChartAction.coerce_dates, ChartAction.chart "Calorie Tracking Over Time"]) ∧
    (te.rows = [] → visualize_exercise te = []) ∧
    (te.rows ≠ [] → visualize_exercise te =
      [ChartAction.coerce_dates, ChartAction.chart "Exercise Duration Over Time"]) ∧
    (tw.rows = [] → visualize_water tw =
      [ChartAction.warning
        "No water intake data available. Please log your water intake."]) ∧
    (tw.rows ≠ [] → visualize_water tw =
      [ChartAction.coerce_dates, ChartAction.chart "Water Intake Over Time"]) ∧
    (ts.rows = [] → visualize_sleep ts =
      [ChartAction.warning
        "No sleep data available. Please log your sleep details in Daily Tracking."]) ∧
    (ts.rows ≠ [] → visualize_sleep ts =
      [ChartAction.coerce_dates, ChartAction.chart "Sleep Duration Over Time",
        ChartAction.chart "Sleep Quality Over Time"]) := by
  refine ⟨?_, ?_, ?_, ?_, ?_, ?_, ?_, ?_⟩ <;> intro h <;>
    simp [visualize_calories, visualize_exercise, visualize_water,
      visualize_sleep, h]

/-- C6 (witness): the amended behavior at concrete tables — empty
calorie, water and sleep histories yield their placeholders, an
empty exercise history yields nothing, and a one-row exercise
history yields the coercion and the bar chart. -/
theorem visualize_placeholder_behavior_concrete :
    visualize_calories { columns := calorie_columns, rows := [] } =
      [ChartAction.warning
        "No calorie data available. Please log your activity in Daily Tracking."] ∧
    visualize_exercise { columns := exercise_columns, rows := [] } = [] ∧
    visualize_exercise
        { columns := exercise_columns,
          rows := [{ date := 0, exercise_type := "Running", duration := 30 }] } =
      [ChartAction.coerce_dates, ChartAction.chart "Exercise Duration Over Time"] ∧
    visualize_water { columns := water_columns, rows := [] } =
      [ChartAction.warning
        "No water intake data available. Please log your water intake."] ∧
    visualize_sleep { columns := sleep_columns, rows := [] } =
      [ChartAction.warning
        "No sleep data available. Please log your sleep details in Daily Tracking."] :=
  have hempty := visualize_placeholder_behavior
    { columns := calorie_columns, rows := [] }
    { columns := exercise_columns, rows := [] }
    { columns := water_columns, rows := [] }
    { columns := sleep_columns, rows := [] }
  have hone := visualize_placeholder_behavior
    { columns := calorie_columns, rows := [] }
    { columns := exercise_columns,
      rows := [{ date := 0, exercise_type := "Running", duration := 30 }] }
    { columns := water_columns, rows := [] }
    { columns := sleep_columns, rows := [] }
  ⟨hempty.1 rfl, hempty.2.2.1 rfl, hone.2.2.2.1 (by simp),
    hempty.2.2.2.2.1 rfl, hempty.2.2.2.2.2.2.1 rfl⟩

/-- C7: in every stored state the application can reach from no
files, every row of the calorie history has `calories_consumed`
equal to 0 and `calories_burned` equal to the estimator's prediction
at some feature tuple. -/
theorem calorie_history_invariant (predict : Features → ℚ) (s : AppState)
    (hs : Reachable predict s) :
    ∀ row ∈ (load_data s.calorie_file calorie_columns).rows,
      row.calories_consumed = 0 ∧ ∃ x, row.calories_burned = predict x := by
  induction hs with
  | init =>
      intro row hrow
      simp [initState, load_data] at hrow
  | step s t _ hstep ih =>
      cases hstep with
      | calories p now duration heart_rate body_temp =>
          intro row hrow
          simp only [log_calories, load_data, save_data, concat_row,
            List.mem_append, List.mem_singleton] at hrow
          rcases hrow with hold | hnew
          · exact ih row (by simpa [load_data] using hold)
          · subst hnew
            exact ⟨rfl, user_data p duration heart_rate body_temp, rfl⟩
      | exercise new_row =>
          intro row hrow
          exact ih row (by simpa [log_exercise] using hrow)
      | water new_row =>
          intro row hrow
          exact ih row (by simpa [log_water] using hrow)
      | sleep new_row =>
          intro row hrow
          exact ih row (by simpa [log_sleep] using hrow)

/-- C7 (witness): after one calorie logging step from the initial
state, under the constant estimator `fun x => 100`, the stored row
has consumed 0 and burned equal to a prediction. -/
theorem calorie_history_invariant_after_one_log :
    ({ date := 5, calories_consumed := 0, calories_burned := 100 } :
        CalorieRow).calories_consumed = 0 ∧
    ∃ x, ({ date := 5, calories_consumed := 0, calories_burned := 100 } :
        CalorieRow).calories_burned = (fun _ : Features => (100 : ℚ)) x :=
  calorie_history_invariant (fun _ => 100)
    (log_calories (fun _ => 100) initState
      { gender := Gender.Male, height := 180, weight := 80, age := 30 } 5 30 120 37)
    (Reachable.step _ _ Reachable.init
      (Step.calories initState
        { gender := Gender.Male, height := 180, weight := 80, age := 30 } 5 30 120 37))
    { date := 5, calories_consumed := 0, calories_burned := 100 }
    (by simp [log_calories, load_data, save_data, concat_row, initState])

end PFT
